import Mathlib

/-!
# Verification of the dad-pass one-time-read message service

Shallow embedding of the two backend variants of the dad-pass service:

* `App` — the container backend (`backend-container/app/app.py`, Flask).
* `LambdaFunction` — the serverless backend (`backend/src/lambda_function.py`).

DynamoDB is modelled as an abstract keyed store `Table` (a partial map from
the `messageKey` string to an item).  DynamoDB items and JSON request/response
bodies are association lists of attribute names to values (`Obj`); attribute
values (`Attr`) are strings or numbers (Python `int` and `Decimal` both map to
`Attr.num`).

The Fernet envelope cipher lives in an external library, so the two routines
`encrypt_message` / `decrypt_message` are abstracted as parameters
`enc : String → String` and `dec : String → Option String` (`none` models a
raised decryption error).  `generate_random_id` draws from a random source, so
the generated candidate key is likewise a parameter of `create_message`, and
`int(time.time())` is the parameter `now`.
-/

/-- An attribute value: a JSON / DynamoDB string or number.  Python `int` and
DynamoDB `Decimal` both embed as `num`. -/
inductive Attr where
  | str (s : String)
  | num (n : Int)
deriving DecidableEq

/-- A JSON object / DynamoDB item: an association list from attribute names to
values (keys are unique, as in a Python dict). -/
abbrev Obj := List (String × Attr)

/-- Dict lookup: `o.get(k)` / `k in o`. -/
def getAttr (o : Obj) (k : String) : Option Attr :=
  match o with
  | [] => none
  | (k', v) :: rest => if k' = k then some v else getAttr rest k

/-- Dict update `o[k] = v`: replaces the value in place when the key is
present, appends otherwise (Python dicts preserve insertion order). -/
def setAttr (o : Obj) (k : String) (v : Attr) : Obj :=
  if (getAttr o k).isSome then o.map (fun kv => if kv.1 = k then (k, v) else kv)
  else o ++ [(k, v)]

/-- Dict merge `{**base, **upd}`: entries of `upd` override entries of
`base`. -/
def mergeObj (base upd : Obj) : Obj :=
  upd.foldl (fun acc kv => setAttr acc kv.1 kv.2) base

/-- Dict `pop(k, ...)`, state part: the object with key `k` removed. -/
def popKey (o : Obj) (k : String) : Obj :=
  o.filter (fun kv => kv.1 != k)

/-- The keyed record store (DynamoDB table keyed by `messageKey`). -/
def Table := String → Option Obj

/-- The empty store. -/
def Table.empty : Table := fun _ => none

/-- `table.put_item`: (unconditionally) store `item` under key `k`.  The
conditional `attribute_not_exists(messageKey)` check is made explicitly by the
callers before invoking `put`. -/
def Table.put (t : Table) (k : String) (item : Obj) : Table :=
  fun k' => if k' = k then some item else t k'

/-- `table.delete_item(Key={'messageKey': k})`: idempotent delete. -/
def Table.del (t : Table) (k : String) : Table :=
  fun k' => if k' = k then none else t k'

/-- `TTL_OPTIONS.get(ttl_option, TTL_OPTIONS['5days'])`, identical in both
backends: maps the request's `ttlOption` value to a duration in seconds, with
every unrecognized (or non-string) value falling back to the `5days`
duration. -/
def ttlDurationOf (v : Attr) : Int :=
  if v = Attr.str "15min" then 900
  else if v = Attr.str "1hour" then 3600
  else if v = Attr.str "1day" then 86400
  else if v = Attr.str "5days" then 432000
  else 432000

/-- The expiry-timestamp read in `get_message` (identical in both backends):
`ttl = item.get('ttl', 0); ttl_value = int(ttl) if isinstance(ttl, (int,
Decimal)) else 0`.  A missing or non-numeric `ttl` attribute coerces to 0. -/
def ttlValueOf (item : Obj) : Int :=
  match (getAttr item "ttl").getD (Attr.num 0) with
  | Attr.num n => n
  | Attr.str _ => 0

/-- The not-available sentinel body returned by both backends for an absent,
expired or already-consumed key. -/
def notAvailableBody : Obj := [("message", Attr.str "Message is no longer available")]

/-- An HTTP response of the container backend: status code plus JSON body. -/
structure HttpResp where
  status : Nat
  body : Obj
deriving DecidableEq

/-- The outcome of a serverless route: a returned JSON body (which API Gateway
serves with status 200) or a raised `InternalServerError` (served as 500). -/
inductive LambdaResult where
  | ok (body : Obj)
  | internalError (msg : String)
deriving DecidableEq

namespace App

/-- `jsonify({'message': 'Message is no longer available'})` (status 200). -/
def notAvailableResp : HttpResp := ⟨200, notAvailableBody⟩

/-- `jsonify({'error': 'Message is required'}), 400`. -/
def validationResp : HttpResp := ⟨400, [("error", Attr.str "Message is required")]⟩

/-- The 500 response for a `ConditionalCheckFailedException` (key collision). -/
def collisionResp : HttpResp :=
  ⟨500, [("error", Attr.str "Key collision occurred, this is rare. Please try again.")]⟩

/-- The generic 500 response of `create_message`'s exception handler. -/
def createFailResp : HttpResp := ⟨500, [("error", Attr.str "Failed to create message")]⟩

/-- `get_message` of the container backend (`app.py`): fetch the item, treat a
missing/non-numeric/past `ttl` as expired (delete, sentinel), otherwise delete
the record first and only then decrypt `encryptedMessage`; a decryption error
(`dec _ = none`, or a non-string `encryptedMessage` making `decrypt_message`
raise) is caught and answered with the sentinel, with the record staying
deleted.  `now` is `int(time.time())`. -/
def get_message (dec : String → Option String) (now : Int) (messageKey : String)
    (t : Table) : HttpResp × Table :=
  match t messageKey with
  | none => (notAvailableResp, t)
  | some item =>
    if ttlValueOf item < now then
      (notAvailableResp, Table.del t messageKey)
    else
      match (getAttr item "encryptedMessage").getD (Attr.str "") with
      | Attr.str c =>
        match dec c with
        | some p =>
          (⟨200, [("message", Attr.str p),
                  ("ttlOption", (getAttr item "ttlOption").getD (Attr.str "5days"))]⟩,
           Table.del t messageKey)
        | none => (notAvailableResp, Table.del t messageKey)
      | Attr.num _ => (notAvailableResp, Table.del t messageKey)

/-- `create_message` of the container backend (`app.py`): reject a null/empty
body or a body without `message` with 400; resolve the TTL option (default and
fallback `5days`); encrypt the message (a non-string `message` makes
`encrypt_message` raise, caught as a generic 500); conditionally insert, and
answer 500 on a key collision without retrying.  `messageKey` is the value
produced by `generate_random_id(10)`, `body` the parsed JSON body (`none`
models a null body). -/
def create_message (enc : String → String) (messageKey : String) (now : Int)
    (body : Option Obj) (t : Table) : HttpResp × Table :=
  match body with
  | none => (validationResp, t)
  | some messageIn =>
    if messageIn = [] ∨ getAttr messageIn "message" = none then (validationResp, t)
    else
      let ttlOption := (getAttr messageIn "ttlOption").getD (Attr.str "5days")
      let ttlTimestamp := now + ttlDurationOf ttlOption
      match getAttr messageIn "message" with
      | some (Attr.str plaintext) =>
        let item : Obj :=
          [("messageKey", Attr.str messageKey), ("ttl", Attr.num ttlTimestamp),
           ("encryptedMessage", Attr.str (enc plaintext)), ("ttlOption", ttlOption)]
        match t messageKey with
        | some _ => (collisionResp, t)
        | none => (⟨200, [("messageKey", Attr.str messageKey)]⟩, Table.put t messageKey item)
      | _ => (createFailResp, t)

end App

namespace LambdaFunction

/-- `get_message` of the serverless backend (`lambda_function.py`): same
fetch/expiry/delete protocol as the container backend, but no decryption — the
response is the stored item minus the internal `messageKey` and `ttl`
attributes, returned verbatim. -/
def get_message (now : Int) (messageKey : String) (t : Table) : LambdaResult × Table :=
  match t messageKey with
  | none => (LambdaResult.ok notAvailableBody, t)
  | some item =>
    if ttlValueOf item < now then
      (LambdaResult.ok notAvailableBody, Table.del t messageKey)
    else
      (LambdaResult.ok (item.filter (fun kv => kv.1 != "messageKey" && kv.1 != "ttl")),
       Table.del t messageKey)

/-- `create_message` of the serverless backend (`lambda_function.py`): no
validation and no encryption — `ttlOption` is popped from the body (so it is
never stored), the expiry timestamp is computed, and the remaining body fields
are spread verbatim into the stored item (`{'messageKey': key, 'ttl': ts,
**message_in}`).  `body = none` models a request whose body fails to parse
(`json_body` raises, caught by the generic handler).  A key collision raises
`InternalServerError` immediately, without retrying. -/
def create_message (messageKey : String) (now : Int) (body : Option Obj)
    (t : Table) : LambdaResult × Table :=
  match body with
  | none => (LambdaResult.internalError "Failed to create message", t)
  | some messageIn =>
    let ttlOption := (getAttr messageIn "ttlOption").getD (Attr.str "5days")
    let rest := popKey messageIn "ttlOption"
    let ttlTimestamp := now + ttlDurationOf ttlOption
    let item := mergeObj [("messageKey", Attr.str messageKey), ("ttl", Attr.num ttlTimestamp)] rest
    match t messageKey with
    | some _ =>
      (LambdaResult.internalError "Key collision occurred, this is rare. Please try again.", t)
    | none => (LambdaResult.ok [("messageKey", Attr.str messageKey)], Table.put t messageKey item)

end LambdaFunction

/-- A deterministic stand-in cipher for concrete witnesses: tags the plaintext
with a marker character. -/
def encTest (s : String) : String := String.mk ('#' :: s.data)

/-- Decryption matching `encTest`; fails closed on any untagged input. -/
def decTest (c : String) : Option String :=
  match c.data with
  | '#' :: rest => some (String.mk rest)
  | _ => none

/-! ## Helper lemmas -/

theorem Table.put_self (t : Table) (k : String) (item : Obj) :
    Table.put t k item k = some item := by
  simp [Table.put]

theorem Table.del_self (t : Table) (k : String) : Table.del t k k = none := by
  simp [Table.del]

/-- Every path of the container `get_message` that finds the record removes it:
the returned store never maps the requested key. -/
theorem app_get_message_consumes (dec : String → Option String) (now : Int)
    (k : String) (t : Table) :
    ((App.get_message dec now k t).2) k = none := by
  unfold App.get_message
  cases h : t k with
  | none => simp [h]
  | some item =>
    simp only [h]
    by_cases hexp : ttlValueOf item < now
    · simp [hexp, Table.del]
    · simp only [hexp, if_false]
      cases hc : (getAttr item "encryptedMessage").getD (Attr.str "") with
      | str c => cases hd : dec c <;> simp [hd, Table.del]
      | num n => simp [Table.del]

/-- Every path of the serverless `get_message` that finds the record removes
it: the returned store never maps the requested key. -/
theorem lambda_get_message_consumes (now : Int) (k : String) (t : Table) :
    ((LambdaFunction.get_message now k t).2) k = none := by
  unfold LambdaFunction.get_message
  cases h : t k with
  | none => simp [h]
  | some item =>
    simp only [h]
    by_cases hexp : ttlValueOf item < now
    · simp [hexp, Table.del]
    · simp [hexp, Table.del]

/-! ## Claims -/

/-- C1: the spec demands that a record written by Create holds only the
ciphertext of the envelope cipher, never the plaintext.  The container backend
does encrypt, but the serverless backend's `create_message` (which never calls
the `encrypt_message` of its own `utils` module) stores the request's `message`
field verbatim: creating `{"message": "secret"}` succeeds and the stored item
carries the plaintext `secret` with no `encryptedMessage` attribute at all. -/
theorem C1_serverless_stores_plaintext :
    (LambdaFunction.create_message "k123456789" 1000000
        (some [("message", Attr.str "secret")]) Table.empty).1
      = LambdaResult.ok [("messageKey", Attr.str "k123456789")] ∧
    (LambdaFunction.create_message "k123456789" 1000000
        (some [("message", Attr.str "secret")]) Table.empty).2 "k123456789"
      = some [("messageKey", Attr.str "k123456789"), ("ttl", Attr.num 1432000),
              ("message", Attr.str "secret")] ∧
    getAttr (((LambdaFunction.create_message "k123456789" 1000000
        (some [("message", Attr.str "secret")]) Table.empty).2 "k123456789").getD [])
      "encryptedMessage" = none := by
  decide

/-- C2 counterexample: in the serverless backend the first `Read` after a
`Create` with `ttlOption = "1hour"` answers `{"message": "secret"}` only — the
stored `ttlOption` is not part of the response (it is never stored), so the
claim "the first Read(k) returns the original plaintext together with the
stored ttlOption" fails there. -/
theorem C2_counterexample :
    (LambdaFunction.get_message 1000900 "k123456789"
      (LambdaFunction.create_message "k123456789" 1000000
        (some [("message", Attr.str "secret"), ("ttlOption", Attr.str "1hour")]) Table.empty).2).1
    = LambdaResult.ok [("message", Attr.str "secret")] ∧
    getAttr [("message", Attr.str "secret")] "ttlOption" = none := by
  decide

/-- C2 (amended): in the container backend a successful `Create` followed,
before expiry, by a first `Read` yields the original plaintext together with
the stored `ttlOption`, and every subsequent `Read` of the same key yields the
not-available outcome; in the serverless backend the first `Read` yields the
raw stored `message` field without any `ttlOption`, and every subsequent
`Read` yields the not-available outcome. -/
theorem C2_one_time_read
    (enc : String → String) (dec : String → Option String)
    (k : String) (now now1 now2 : Int) (b : Obj) (p v : String) (t : Table)
    (hdec : dec (enc p) = some p)
    (hmsg : getAttr b "message" = some (Attr.str p))
    (hfree : t k = none)
    (hnoexp : ¬ (now + ttlDurationOf ((getAttr b "ttlOption").getD (Attr.str "5days")) < now1)) :
    (App.create_message enc k now (some b) t).1 = ⟨200, [("messageKey", Attr.str k)]⟩ ∧
    (App.get_message dec now1 k (App.create_message enc k now (some b) t).2).1
      = ⟨200, [("message", Attr.str p),
               ("ttlOption", (getAttr b "ttlOption").getD (Attr.str "5days"))]⟩ ∧
    (App.get_message dec now2 k
      (App.get_message dec now1 k (App.create_message enc k now (some b) t).2).2).1
      = App.notAvailableResp ∧
    (b = [("message", Attr.str p), ("ttlOption", Attr.str v)] →
      (LambdaFunction.get_message now1 k (LambdaFunction.create_message k now (some b) t).2).1
        = LambdaResult.ok [("message", Attr.str p)] ∧
      (LambdaFunction.get_message now2 k
        (LambdaFunction.get_message now1 k (LambdaFunction.create_message k now (some b) t).2).2).1
        = LambdaResult.ok notAvailableBody) := by
  have hb : b ≠ [] := by
    intro h
    rw [h] at hmsg
    simp [getAttr] at hmsg
  have hcreate : App.create_message enc k now (some b) t
      = (⟨200, [("messageKey", Attr.str k)]⟩,
         Table.put t k
           [("messageKey", Attr.str k),
            ("ttl", Attr.num (now + ttlDurationOf ((getAttr b "ttlOption").getD (Attr.str "5days")))),
            ("encryptedMessage", Attr.str (enc p)),
            ("ttlOption", (getAttr b "ttlOption").getD (Attr.str "5days"))]) := by
    unfold App.create_message
    simp [hb, hmsg, hfree]
  rw [hcreate]
  have hread : App.get_message dec now1 k
      (Table.put t k
        [("messageKey", Attr.str k),
         ("ttl", Attr.num (now + ttlDurationOf ((getAttr b "ttlOption").getD (Attr.str "5days")))),
         ("encryptedMessage", Attr.str (enc p)),
         ("ttlOption", (getAttr b "ttlOption").getD (Attr.str "5days"))])
      = (⟨200, [("message", Attr.str p),
                ("ttlOption", (getAttr b "ttlOption").getD (Attr.str "5days"))]⟩,
         Table.del (Table.put t k
           [("messageKey", Attr.str k),
            ("ttl", Attr.num (now + ttlDurationOf ((getAttr b "ttlOption").getD (Attr.str "5days")))),
            ("encryptedMessage", Attr.str (enc p)),
            ("ttlOption", (getAttr b "ttlOption").getD (Attr.str "5days"))]) k) := by
    unfold App.get_message
    rw [Table.put_self]
    simp [ttlValueOf, getAttr, hnoexp, hdec]
  rw [hread]
  refine ⟨rfl, rfl, ?_, ?_⟩
  · simp [App.get_message, Table.del]
  · intro hbv
    subst hbv
    have hlc : LambdaFunction.create_message k now
        (some [("message", Attr.str p), ("ttlOption", Attr.str v)]) t
        = (LambdaResult.ok [("messageKey", Attr.str k)],
           Table.put t k
             [("messageKey", Attr.str k),
              ("ttl", Attr.num (now + ttlDurationOf (Attr.str v))),
              ("message", Attr.str p)]) := by
      unfold LambdaFunction.create_message
      simp [hfree, popKey, mergeObj, setAttr, getAttr]
    rw [hlc]
    have hlr : LambdaFunction.get_message now1 k
        (Table.put t k
          [("messageKey", Attr.str k),
           ("ttl", Attr.num (now + ttlDurationOf (Attr.str v))),
           ("message", Attr.str p)])
        = (LambdaResult.ok [("message", Attr.str p)],
           Table.del (Table.put t k
             [("messageKey", Attr.str k),
              ("ttl", Attr.num (now + ttlDurationOf (Attr.str v))),
              ("message", Attr.str p)]) k) := by
      unfold LambdaFunction.get_message
      rw [Table.put_self]
      have hnoexp2 : ¬ (now + ttlDurationOf (Attr.str v) < now1) := by
        simpa [getAttr] using hnoexp
      simp [ttlValueOf, getAttr, hnoexp2]
    rw [hlr]
    refine ⟨rfl, ?_⟩
    simp [LambdaFunction.get_message, Table.del]

/-- C2 witness: the amended one-time-read property evaluated on a concrete
run (`Create("hi", "1hour")` at time 1000000, reads at 1000900 and 1000901). -/
theorem C2_one_time_read_witness :
    (App.create_message encTest "k123456789" 1000000
        (some [("message", Attr.str "hi"), ("ttlOption", Attr.str "1hour")]) Table.empty).1
      = ⟨200, [("messageKey", Attr.str "k123456789")]⟩ ∧
    (App.get_message decTest 1000900 "k123456789"
      (App.create_message encTest "k123456789" 1000000
        (some [("message", Attr.str "hi"), ("ttlOption", Attr.str "1hour")]) Table.empty).2).1
      = ⟨200, [("message", Attr.str "hi"), ("ttlOption", Attr.str "1hour")]⟩ ∧
    (App.get_message decTest 1000901 "k123456789"
      (App.get_message decTest 1000900 "k123456789"
        (App.create_message encTest "k123456789" 1000000
          (some [("message", Attr.str "hi"), ("ttlOption", Attr.str "1hour")]) Table.empty).2).2).1
      = App.notAvailableResp ∧
    ([("message", Attr.str "hi"), ("ttlOption", Attr.str "1hour")]
        = [("message", Attr.str "hi"), ("ttlOption", Attr.str "1hour")] →
      (LambdaFunction.get_message 1000900 "k123456789"
        (LambdaFunction.create_message "k123456789" 1000000
          (some [("message", Attr.str "hi"), ("ttlOption", Attr.str "1hour")]) Table.empty).2).1
        = LambdaResult.ok [("message", Attr.str "hi")] ∧
      (LambdaFunction.get_message 1000901 "k123456789"
        (LambdaFunction.get_message 1000900 "k123456789"
          (LambdaFunction.create_message "k123456789" 1000000
            (some [("message", Attr.str "hi"), ("ttlOption", Attr.str "1hour")]) Table.empty).2).2).1
        = LambdaResult.ok notAvailableBody) := by
  exact C2_one_time_read encTest decTest "k123456789" 1000000 1000900 1000901
    [("message", Attr.str "hi"), ("ttlOption", Attr.str "1hour")] "hi" "1hour" Table.empty
    (by decide) (by decide) rfl (by decide)

/-- C3: in the container backend, a present, non-expired record is removed
from the store on `Read` no matter what decryption does, and when decryption
of the stored ciphertext fails the caller sees exactly the not-found sentinel
while the record stays deleted — the store is not restored and no crypto
detail is exposed. -/
theorem C3_delete_before_decrypt
    (dec : String → Option String) (now : Int) (k : String) (t : Table)
    (item : Obj) (c : String)
    (hpresent : t k = some item)
    (hlive : ¬ (ttlValueOf item < now))
    (hcipher : getAttr item "encryptedMessage" = some (Attr.str c)) :
    ((App.get_message dec now k t).2) k = none ∧
    (dec c = none → App.get_message dec now k t = (App.notAvailableResp, Table.del t k)) := by
  constructor
  · exact app_get_message_consumes dec now k t
  · intro hfail
    unfold App.get_message
    simp [hpresent, hlive, hcipher, hfail]

/-- C3 witness: a concrete live record whose stored ciphertext `junk` is not a
valid token of `decTest`; the read deletes it and answers the sentinel. -/
theorem C3_delete_before_decrypt_witness :
    ((App.get_message decTest 1000000 "kkkkkkkkkk"
        (Table.put Table.empty "kkkkkkkkkk"
          [("messageKey", Attr.str "kkkkkkkkkk"), ("ttl", Attr.num 2000000),
           ("encryptedMessage", Attr.str "junk"), ("ttlOption", Attr.str "1hour")])).2)
      "kkkkkkkkkk" = none ∧
    (decTest "junk" = none →
      App.get_message decTest 1000000 "kkkkkkkkkk"
        (Table.put Table.empty "kkkkkkkkkk"
          [("messageKey", Attr.str "kkkkkkkkkk"), ("ttl", Attr.num 2000000),
           ("encryptedMessage", Attr.str "junk"), ("ttlOption", Attr.str "1hour")])
      = (App.notAvailableResp,
         Table.del (Table.put Table.empty "kkkkkkkkkk"
          [("messageKey", Attr.str "kkkkkkkkkk"), ("ttl", Attr.num 2000000),
           ("encryptedMessage", Attr.str "junk"), ("ttlOption", Attr.str "1hour")]) "kkkkkkkkkk")) := by
  exact C3_delete_before_decrypt decTest 1000000 "kkkkkkkkkk"
    (Table.put Table.empty "kkkkkkkkkk"
      [("messageKey", Attr.str "kkkkkkkkkk"), ("ttl", Attr.num 2000000),
       ("encryptedMessage", Attr.str "junk"), ("ttlOption", Attr.str "1hour")])
    [("messageKey", Attr.str "kkkkkkkkkk"), ("ttl", Attr.num 2000000),
     ("encryptedMessage", Attr.str "junk"), ("ttlOption", Attr.str "1hour")] "junk"
    (by decide) (by decide) (by decide)

/-! ## Association-list lemmas -/

theorem getAttr_cons (k0 : String) (v0 : Attr) (rest : Obj) (key : String) :
    getAttr ((k0, v0) :: rest) key = if k0 = key then some v0 else getAttr rest key := rfl

theorem getAttr_eq_none_iff (o : Obj) (k : String) :
    getAttr o k = none ↔ ∀ kv ∈ o, kv.1 ≠ k := by
  induction o with
  | nil => simp [getAttr]
  | cons kv rest ih =>
    obtain ⟨k', v⟩ := kv
    by_cases h : k' = k
    · subst h
      simp [getAttr, ih]
    · simp [getAttr, h, ih]

theorem getAttr_map_replace (o : Obj) (k' : String) (v : Attr) (key : String) (h : k' ≠ key) :
    getAttr (List.map (fun kv => if kv.1 = k' then (k', v) else kv) o) key = getAttr o key := by
  induction o with
  | nil => rfl
  | cons kv rest ih =>
    obtain ⟨k0, v0⟩ := kv
    by_cases h0 : k0 = k'
    · have hh : (if (k0, v0).1 = k' then (k', v) else (k0, v0)) = (k', v) := by simp [h0]
      rw [List.map_cons, hh, getAttr_cons, getAttr_cons, ih]
      rw [if_neg h, if_neg (fun hk => h (h0.symm.trans hk))]
    · have hh : (if (k0, v0).1 = k' then (k', v) else (k0, v0)) = (k0, v0) := by simp [h0]
      rw [List.map_cons, hh, getAttr_cons, getAttr_cons, ih]

theorem getAttr_append_single (o : Obj) (k' : String) (v : Attr) (key : String) (h : k' ≠ key) :
    getAttr (o ++ [(k', v)]) key = getAttr o key := by
  induction o with
  | nil =>
    show getAttr ((k', v) :: []) key = none
    rw [getAttr_cons, if_neg h]
    rfl
  | cons kv rest ih =>
    obtain ⟨k0, v0⟩ := kv
    rw [List.cons_append, getAttr_cons, getAttr_cons, ih]

theorem setAttr_getAttr_ne (o : Obj) (k' : String) (v : Attr) (key : String) (h : k' ≠ key) :
    getAttr (setAttr o k' v) key = getAttr o key := by
  unfold setAttr
  by_cases hp : (getAttr o k').isSome
  · rw [if_pos hp]
    exact getAttr_map_replace o k' v key h
  · rw [if_neg hp]
    exact getAttr_append_single o k' v key h

theorem mergeObj_getAttr_of_ne (base upd : Obj) (key : String)
    (h : ∀ kv ∈ upd, kv.1 ≠ key) :
    getAttr (mergeObj base upd) key = getAttr base key := by
  induction upd generalizing base with
  | nil => rfl
  | cons kv rest ih =>
    have hkv : kv.1 ≠ key := h kv (List.mem_cons_self kv rest)
    have hrest : ∀ kv' ∈ rest, kv'.1 ≠ key := fun kv' hm => h kv' (List.mem_cons_of_mem kv hm)
    calc getAttr (mergeObj base (kv :: rest)) key
        = getAttr (mergeObj (setAttr base kv.1 kv.2) rest) key := rfl
      _ = getAttr (setAttr base kv.1 kv.2) key := ih (setAttr base kv.1 kv.2) hrest
      _ = getAttr base key := setAttr_getAttr_ne base kv.1 kv.2 key hkv

theorem popKey_keys_ne (o : Obj) (k : String) : ∀ kv ∈ popKey o k, kv.1 ≠ k := by
  intro kv hm
  have := List.mem_filter.mp hm
  simpa using this.2

theorem popKey_subset (o : Obj) (k : String) : ∀ kv ∈ popKey o k, kv ∈ o := by
  intro kv hm
  exact (List.mem_filter.mp hm).1

/-- C4 counterexample: with the single generated candidate key already taken
(and every other key free), the container `create_message` surfaces the
collision error at once and writes nothing — it never retries with a fresh
key, contradicting "retries with a freshly generated key up to a small
bounded number of attempts, and only after that bound is exhausted surfaces a
StorageError". -/
theorem C4_counterexample :
    App.create_message encTest "kkkkkkkkkk" 1000000 (some [("message", Attr.str "m")])
      (Table.put Table.empty "kkkkkkkkkk" [("messageKey", Attr.str "kkkkkkkkkk")])
    = (App.collisionResp,
       Table.put Table.empty "kkkkkkkkkk" [("messageKey", Attr.str "kkkkkkkkkk")]) := by
  rfl

/-- C4 (amended): when the atomic conditional insert fails because the
generated key already exists, both backends surface the key-collision error
to the caller immediately (HTTP 500 from the container, `InternalServerError`
from the serverless handler, each with a message inviting the caller to try
again) without any retry, and leave the store unchanged. -/
theorem C4_no_retry_on_collision
    (enc : String → String) (k : String) (now : Int) (b : Obj) (p : String)
    (t : Table) (item : Obj)
    (hmsg : getAttr b "message" = some (Attr.str p))
    (hocc : t k = some item) :
    App.create_message enc k now (some b) t = (App.collisionResp, t) ∧
    LambdaFunction.create_message k now (some b) t
      = (LambdaResult.internalError "Key collision occurred, this is rare. Please try again.", t) := by
  have hb : b ≠ [] := by
    intro h
    rw [h] at hmsg
    simp [getAttr] at hmsg
  constructor
  · unfold App.create_message
    simp [hb, hmsg, hocc]
  · unfold LambdaFunction.create_message
    simp [hocc]

/-- C4 witness: the no-retry collision behaviour at a concrete occupied
key. -/
theorem C4_no_retry_on_collision_witness :
    App.create_message encTest "kkkkkkkkkk" 1000000 (some [("message", Attr.str "m")])
      (Table.put Table.empty "kkkkkkkkkk" [("messageKey", Attr.str "kkkkkkkkkk")])
      = (App.collisionResp, Table.put Table.empty "kkkkkkkkkk" [("messageKey", Attr.str "kkkkkkkkkk")]) ∧
    LambdaFunction.create_message "kkkkkkkkkk" 1000000 (some [("message", Attr.str "m")])
      (Table.put Table.empty "kkkkkkkkkk" [("messageKey", Attr.str "kkkkkkkkkk")])
      = (LambdaResult.internalError "Key collision occurred, this is rare. Please try again.",
         Table.put Table.empty "kkkkkkkkkk" [("messageKey", Attr.str "kkkkkkkkkk")]) := by
  exact C4_no_retry_on_collision encTest "kkkkkkkkkk" 1000000 [("message", Attr.str "m")] "m"
    (Table.put Table.empty "kkkkkkkkkk" [("messageKey", Attr.str "kkkkkkkkkk")])
    [("messageKey", Attr.str "kkkkkkkkkk")] (by decide) (by decide)

/-- C5 counterexample: the serverless `create_message` accepts a body without
the `message` field — `{"ttlOption": "1hour"}` succeeds with a 200 and a
record is written, where the claim demands a `ValidationError` with no record
written. -/
theorem C5_counterexample :
    (LambdaFunction.create_message "k123456789" 1000000
        (some [("ttlOption", Attr.str "1hour")]) Table.empty).1
      = LambdaResult.ok [("messageKey", Attr.str "k123456789")] ∧
    (LambdaFunction.create_message "k123456789" 1000000
        (some [("ttlOption", Attr.str "1hour")]) Table.empty).2 "k123456789"
      = some [("messageKey", Attr.str "k123456789"), ("ttl", Attr.num 1003600)] := by
  decide

/-- C5 (amended): the container backend validates as claimed — a null body,
an empty body, or a body lacking `message` is rejected with the 400
validation response and no record is written, while a present-but-empty
`message` string is accepted; the serverless backend performs no such
validation — an unparseable/absent body yields a 500 internal error, and a
parsed body lacking `message` is accepted and stored as-is. -/
theorem C5_validation
    (enc : String → String) (k : String) (now : Int) (b1 b2 : Obj) (t : Table)
    (hb1 : getAttr b1 "message" = none)
    (hb2 : getAttr b2 "message" = some (Attr.str ""))
    (hfree : t k = none) :
    App.create_message enc k now none t = (App.validationResp, t) ∧
    App.create_message enc k now (some []) t = (App.validationResp, t) ∧
    App.create_message enc k now (some b1) t = (App.validationResp, t) ∧
    (App.create_message enc k now (some b2) t).1 = ⟨200, [("messageKey", Attr.str k)]⟩ ∧
    LambdaFunction.create_message k now none t
      = (LambdaResult.internalError "Failed to create message", t) ∧
    (LambdaFunction.create_message k now (some b1) t).1
      = LambdaResult.ok [("messageKey", Attr.str k)] ∧
    ((LambdaFunction.create_message k now (some b1) t).2 k).isSome := by
  have hb2ne : b2 ≠ [] := by
    intro h
    rw [h] at hb2
    simp [getAttr] at hb2
  refine ⟨rfl, by unfold App.create_message; simp [getAttr], ?_, ?_, rfl, ?_, ?_⟩
  · unfold App.create_message
    simp [hb1]
  · unfold App.create_message
    simp [hb2ne, hb2, hfree]
  · unfold LambdaFunction.create_message
    simp [hfree]
  · unfold LambdaFunction.create_message
    simp [hfree, Table.put]

/-- C5 witness: the validation behaviour at concrete bodies (missing-message
body `{"ttlOption": "1hour"}`, empty-string body `{"message": ""}`). -/
theorem C5_validation_witness :
    App.create_message encTest "k123456789" 1000000 none Table.empty
      = (App.validationResp, Table.empty) ∧
    App.create_message encTest "k123456789" 1000000 (some []) Table.empty
      = (App.validationResp, Table.empty) ∧
    App.create_message encTest "k123456789" 1000000 (some [("ttlOption", Attr.str "1hour")]) Table.empty
      = (App.validationResp, Table.empty) ∧
    (App.create_message encTest "k123456789" 1000000 (some [("message", Attr.str "")]) Table.empty).1
      = ⟨200, [("messageKey", Attr.str "k123456789")]⟩ ∧
    LambdaFunction.create_message "k123456789" 1000000 none Table.empty
      = (LambdaResult.internalError "Failed to create message", Table.empty) ∧
    (LambdaFunction.create_message "k123456789" 1000000 (some [("ttlOption", Attr.str "1hour")]) Table.empty).1
      = LambdaResult.ok [("messageKey", Attr.str "k123456789")] ∧
    ((LambdaFunction.create_message "k123456789" 1000000 (some [("ttlOption", Attr.str "1hour")]) Table.empty).2 "k123456789").isSome := by
  exact C5_validation encTest "k123456789" 1000000 [("ttlOption", Attr.str "1hour")]
    [("message", Attr.str "")] Table.empty (by decide) (by decide) rfl

/-- C6 counterexample: a serverless `Create` with no `ttlOption` stores a
record whose expiry is correct (T + 432000) but which has no `ttlOption`
attribute at all — the claim "stores a ttlOption of 5days" fails there
(`ttlOption` is popped from the body and never written). -/
theorem C6_counterexample :
    getAttr (((LambdaFunction.create_message "k123456789" 1000000
        (some [("message", Attr.str "x")]) Table.empty).2 "k123456789").getD [])
      "ttlOption" = none ∧
    getAttr (((LambdaFunction.create_message "k123456789" 1000000
        (some [("message", Attr.str "x")]) Table.empty).2 "k123456789").getD [])
      "ttl" = some (Attr.num 1432000) := by
  decide

/-- C6 (amended): in both backends a successful `Create` at time `now`
stores an expiry timestamp `now` plus the duration mapped from the request's
`ttlOption` (15min=900, 1hour=3600, 1day=86400, 5days=432000, default 432000
when omitted); the container additionally stores `ttlOption` (`5days` when
omitted), while the serverless backend stores no `ttlOption` attribute. -/
theorem C6_expiry_timestamp
    (enc : String → String) (k : String) (now : Int) (b : Obj) (p : String) (t : Table)
    (hmsg : getAttr b "message" = some (Attr.str p))
    (hnottl : getAttr b "ttl" = none)
    (hfree : t k = none) :
    ttlDurationOf (Attr.str "15min") = 900 ∧
    ttlDurationOf (Attr.str "1hour") = 3600 ∧
    ttlDurationOf (Attr.str "1day") = 86400 ∧
    ttlDurationOf (Attr.str "5days") = 432000 ∧
    getAttr (((App.create_message enc k now (some b) t).2 k).getD []) "ttl"
      = some (Attr.num (now + ttlDurationOf ((getAttr b "ttlOption").getD (Attr.str "5days")))) ∧
    (getAttr b "ttlOption" = none →
      getAttr (((App.create_message enc k now (some b) t).2 k).getD []) "ttlOption"
        = some (Attr.str "5days") ∧
      getAttr (((App.create_message enc k now (some b) t).2 k).getD []) "ttl"
        = some (Attr.num (now + 432000))) ∧
    getAttr (((LambdaFunction.create_message k now (some b) t).2 k).getD []) "ttl"
      = some (Attr.num (now + ttlDurationOf ((getAttr b "ttlOption").getD (Attr.str "5days")))) ∧
    getAttr (((LambdaFunction.create_message k now (some b) t).2 k).getD []) "ttlOption"
      = none := by
  have hb : b ≠ [] := by
    intro h
    rw [h] at hmsg
    simp [getAttr] at hmsg
  have hcreate : App.create_message enc k now (some b) t
      = (⟨200, [("messageKey", Attr.str k)]⟩,
         Table.put t k
           [("messageKey", Attr.str k),
            ("ttl", Attr.num (now + ttlDurationOf ((getAttr b "ttlOption").getD (Attr.str "5days")))),
            ("encryptedMessage", Attr.str (enc p)),
            ("ttlOption", (getAttr b "ttlOption").getD (Attr.str "5days"))]) := by
    unfold App.create_message
    simp [hb, hmsg, hfree]
  have hlc : LambdaFunction.create_message k now (some b) t
      = (LambdaResult.ok [("messageKey", Attr.str k)],
         Table.put t k
           (mergeObj
             [("messageKey", Attr.str k),
              ("ttl", Attr.num (now + ttlDurationOf ((getAttr b "ttlOption").getD (Attr.str "5days"))))]
             (popKey b "ttlOption"))) := by
    unfold LambdaFunction.create_message
    simp [hfree]
  have hnettl : ∀ kv ∈ popKey b "ttlOption", kv.1 ≠ "ttl" := fun kv hm =>
    (getAttr_eq_none_iff b "ttl").mp hnottl kv (popKey_subset b "ttlOption" kv hm)
  have hmergettl :
      getAttr (mergeObj
        [("messageKey", Attr.str k),
         ("ttl", Attr.num (now + ttlDurationOf ((getAttr b "ttlOption").getD (Attr.str "5days"))))]
        (popKey b "ttlOption")) "ttl"
      = some (Attr.num (now + ttlDurationOf ((getAttr b "ttlOption").getD (Attr.str "5days")))) := by
    rw [mergeObj_getAttr_of_ne _ _ _ hnettl]
    rfl
  have hmergeopt :
      getAttr (mergeObj
        [("messageKey", Attr.str k),
         ("ttl", Attr.num (now + ttlDurationOf ((getAttr b "ttlOption").getD (Attr.str "5days"))))]
        (popKey b "ttlOption")) "ttlOption" = none := by
    rw [mergeObj_getAttr_of_ne _ _ _ (popKey_keys_ne b "ttlOption")]
    rfl
  refine ⟨rfl, rfl, rfl, rfl, ?_, ?_, ?_, ?_⟩
  · rw [hcreate]
    simp [Table.put, getAttr]
  · intro hdefault
    rw [hcreate]
    simp [Table.put, getAttr, hdefault]
    decide
  · rw [hlc]
    simpa [Table.put] using hmergettl
  · rw [hlc]
    simpa [Table.put] using hmergeopt

/-- C6 witness: a concrete default-TTL `Create` in both backends at time
1000000: expiry 1432000, container `ttlOption` `5days`, serverless
`ttlOption` absent. -/
theorem C6_expiry_timestamp_witness :
    ttlDurationOf (Attr.str "15min") = 900 ∧
    ttlDurationOf (Attr.str "1hour") = 3600 ∧
    ttlDurationOf (Attr.str "1day") = 86400 ∧
    ttlDurationOf (Attr.str "5days") = 432000 ∧
    getAttr (((App.create_message encTest "k123456789" 1000000
        (some [("message", Attr.str "x")]) Table.empty).2 "k123456789").getD []) "ttl"
      = some (Attr.num 1432000) ∧
    (getAttr [("message", Attr.str "x")] "ttlOption" = none →
      getAttr (((App.create_message encTest "k123456789" 1000000
          (some [("message", Attr.str "x")]) Table.empty).2 "k123456789").getD []) "ttlOption"
        = some (Attr.str "5days") ∧
      getAttr (((App.create_message encTest "k123456789" 1000000
          (some [("message", Attr.str "x")]) Table.empty).2 "k123456789").getD []) "ttl"
        = some (Attr.num 1432000)) ∧
    getAttr (((LambdaFunction.create_message "k123456789" 1000000
        (some [("message", Attr.str "x")]) Table.empty).2 "k123456789").getD []) "ttl"
      = some (Attr.num 1432000) ∧
    getAttr (((LambdaFunction.create_message "k123456789" 1000000
        (some [("message", Attr.str "x")]) Table.empty).2 "k123456789").getD []) "ttlOption"
      = none := by
  exact C6_expiry_timestamp encTest "k123456789" 1000000 [("message", Attr.str "x")] "x"
    Table.empty (by decide) (by decide) rfl

/-- C7 counterexample: a container `Create` with `ttlOption = "bogus"` does
not produce the same stored record as the default case — the stored
`ttlOption` attribute is `bogus`, while the default case stores `5days`, so
"the resulting stored record (including its ttlOption field) is the same as
in the default-5days case" fails. -/
theorem C7_counterexample :
    getAttr (((App.create_message encTest "k123456789" 1000000
        (some [("message", Attr.str "x"), ("ttlOption", Attr.str "bogus")]) Table.empty).2
        "k123456789").getD []) "ttlOption" = some (Attr.str "bogus") ∧
    getAttr (((App.create_message encTest "k123456789" 1000000
        (some [("message", Attr.str "x")]) Table.empty).2 "k123456789").getD [])
      "ttlOption" = some (Attr.str "5days") := by
  decide

/-- C7 (amended): a container `Create` whose `ttlOption` is outside the
closed enumeration succeeds without error and receives the same expiry
timestamp as the default-5days case (now + 432000), but the stored record
carries the unrecognized `ttlOption` value verbatim rather than `5days`. -/
theorem C7_unknown_ttl_option
    (enc : String → String) (k : String) (now : Int) (b : Obj) (p v : String) (t : Table)
    (hmsg : getAttr b "message" = some (Attr.str p))
    (hopt : getAttr b "ttlOption" = some (Attr.str v))
    (hv : v ≠ "15min" ∧ v ≠ "1hour" ∧ v ≠ "1day" ∧ v ≠ "5days")
    (hfree : t k = none) :
    (App.create_message enc k now (some b) t).1 = ⟨200, [("messageKey", Attr.str k)]⟩ ∧
    getAttr (((App.create_message enc k now (some b) t).2 k).getD []) "ttl"
      = some (Attr.num (now + 432000)) ∧
    getAttr (((App.create_message enc k now (some b) t).2 k).getD []) "ttlOption"
      = some (Attr.str v) := by
  have hb : b ≠ [] := by
    intro h
    rw [h] at hmsg
    simp [getAttr] at hmsg
  have hdur : ttlDurationOf (Attr.str v) = 432000 := by
    simp [ttlDurationOf, Attr.str.injEq, hv.1, hv.2.1, hv.2.2.1, hv.2.2.2]
  have hcreate : App.create_message enc k now (some b) t
      = (⟨200, [("messageKey", Attr.str k)]⟩,
         Table.put t k
           [("messageKey", Attr.str k), ("ttl", Attr.num (now + 432000)),
            ("encryptedMessage", Attr.str (enc p)), ("ttlOption", Attr.str v)]) := by
    unfold App.create_message
    simp [hb, hmsg, hfree, hopt, hdur]
  rw [hcreate]
  refine ⟨rfl, ?_, ?_⟩ <;> simp [Table.put, getAttr]

/-- C7 witness: the unknown-option behaviour at the concrete option
`bogus`. -/
theorem C7_unknown_ttl_option_witness :
    (App.create_message encTest "k123456789" 1000000
        (some [("message", Attr.str "x"), ("ttlOption", Attr.str "bogus")]) Table.empty).1
      = ⟨200, [("messageKey", Attr.str "k123456789")]⟩ ∧
    getAttr (((App.create_message encTest "k123456789" 1000000
        (some [("message", Attr.str "x"), ("ttlOption", Attr.str "bogus")]) Table.empty).2
        "k123456789").getD []) "ttl" = some (Attr.num 1432000) ∧
    getAttr (((App.create_message encTest "k123456789" 1000000
        (some [("message", Attr.str "x"), ("ttlOption", Attr.str "bogus")]) Table.empty).2
        "k123456789").getD []) "ttlOption" = some (Attr.str "bogus") := by
  exact C7_unknown_ttl_option encTest "k123456789" 1000000
    [("message", Attr.str "x"), ("ttlOption", Attr.str "bogus")] "x" "bogus" Table.empty
    (by decide) (by decide) (by decide) rfl

/-- C8: in both backends, a `Read` that finds the record but whose stored
expiry timestamp lies strictly in the past deletes the record from the store
and answers the not-available outcome, even if the record was never read
before. -/
theorem C8_expired_read
    (dec : String → Option String) (now e : Int) (k : String) (t : Table) (item : Obj)
    (hpresent : t k = some item)
    (httl : getAttr item "ttl" = some (Attr.num e))
    (hexp : e < now) :
    App.get_message dec now k t = (App.notAvailableResp, Table.del t k) ∧
    LambdaFunction.get_message now k t = (LambdaResult.ok notAvailableBody, Table.del t k) := by
  have hval : ttlValueOf item = e := by simp [ttlValueOf, httl]
  have hv : ttlValueOf item < now := by rw [hval]; exact hexp
  constructor
  · unfold App.get_message
    simp [hpresent, hv]
  · unfold LambdaFunction.get_message
    simp [hpresent, hv]

/-- C8 witness: a concrete record with expiry 1000 read at 2000000 — both
backends delete it and answer the sentinel. -/
theorem C8_expired_read_witness :
    App.get_message decTest 2000000 "kkkkkkkkkk"
      (Table.put Table.empty "kkkkkkkkkk"
        [("messageKey", Attr.str "kkkkkkkkkk"), ("ttl", Attr.num 1000),
         ("encryptedMessage", Attr.str "#x"), ("ttlOption", Attr.str "15min")])
      = (App.notAvailableResp,
         Table.del (Table.put Table.empty "kkkkkkkkkk"
           [("messageKey", Attr.str "kkkkkkkkkk"), ("ttl", Attr.num 1000),
            ("encryptedMessage", Attr.str "#x"), ("ttlOption", Attr.str "15min")]) "kkkkkkkkkk") ∧
    LambdaFunction.get_message 2000000 "kkkkkkkkkk"
      (Table.put Table.empty "kkkkkkkkkk"
        [("messageKey", Attr.str "kkkkkkkkkk"), ("ttl", Attr.num 1000),
         ("encryptedMessage", Attr.str "#x"), ("ttlOption", Attr.str "15min")])
      = (LambdaResult.ok notAvailableBody,
         Table.del (Table.put Table.empty "kkkkkkkkkk"
           [("messageKey", Attr.str "kkkkkkkkkk"), ("ttl", Attr.num 1000),
            ("encryptedMessage", Attr.str "#x"), ("ttlOption", Attr.str "15min")]) "kkkkkkkkkk") := by
  exact C8_expired_read decTest 2000000 1000 "kkkkkkkkkk"
    (Table.put Table.empty "kkkkkkkkkk"
      [("messageKey", Attr.str "kkkkkkkkkk"), ("ttl", Attr.num 1000),
       ("encryptedMessage", Attr.str "#x"), ("ttlOption", Attr.str "15min")])
    [("messageKey", Attr.str "kkkkkkkkkk"), ("ttl", Attr.num 1000),
     ("encryptedMessage", Attr.str "#x"), ("ttlOption", Attr.str "15min")]
    (by decide) (by decide) (by decide)

/-- C9: the externally visible `Read` result is the same not-available
response for (a) a key that was never created, (b) a key whose record has
expired, and (c) a key whose live record was consumed by an earlier
successful read — in both backends, so an observer cannot tell the three
cases apart from the output. -/
theorem C9_indistinguishable
    (dec : String → Option String) (nowA nowB nowC nowD : Int) (k : String)
    (t1 t2 t3 : Table) (item2 item3 : Obj) (e2 : Int) (c3 p3 : String)
    (h1 : t1 k = none)
    (h2 : t2 k = some item2)
    (h2t : getAttr item2 "ttl" = some (Attr.num e2))
    (h2e : e2 < nowB)
    (h3 : t3 k = some item3)
    (h3live : ¬ (ttlValueOf item3 < nowD))
    (h3c : getAttr item3 "encryptedMessage" = some (Attr.str c3))
    (h3d : dec c3 = some p3) :
    (App.get_message dec nowA k t1).1 = App.notAvailableResp ∧
    (App.get_message dec nowB k t2).1 = App.notAvailableResp ∧
    (App.get_message dec nowD k t3).1
      = ⟨200, [("message", Attr.str p3),
               ("ttlOption", (getAttr item3 "ttlOption").getD (Attr.str "5days"))]⟩ ∧
    (App.get_message dec nowC k (App.get_message dec nowD k t3).2).1 = App.notAvailableResp ∧
    (LambdaFunction.get_message nowA k t1).1 = LambdaResult.ok notAvailableBody ∧
    (LambdaFunction.get_message nowB k t2).1 = LambdaResult.ok notAvailableBody ∧
    (LambdaFunction.get_message nowC k (LambdaFunction.get_message nowD k t3).2).1
      = LambdaResult.ok notAvailableBody := by
  have hval2 : ttlValueOf item2 = e2 := by simp [ttlValueOf, h2t]
  have hv2 : ttlValueOf item2 < nowB := by rw [hval2]; exact h2e
  have hcons : ((App.get_message dec nowD k t3).2) k = none :=
    app_get_message_consumes dec nowD k t3
  have hconsl : ((LambdaFunction.get_message nowD k t3).2) k = none :=
    lambda_get_message_consumes nowD k t3
  refine ⟨?_, ?_, ?_, ?_, ?_, ?_, ?_⟩
  · unfold App.get_message
    simp [h1]
  · unfold App.get_message
    simp [h2, hv2]
  · unfold App.get_message
    simp [h3, h3live, h3c, h3d]
  · revert hcons
    generalize (App.get_message dec nowD k t3).2 = t4
    intro hcons
    unfold App.get_message
    simp [hcons]
  · unfold LambdaFunction.get_message
    simp [h1]
  · unfold LambdaFunction.get_message
    simp [h2, hv2]
  · revert hconsl
    generalize (LambdaFunction.get_message nowD k t3).2 = t4
    intro hconsl
    unfold LambdaFunction.get_message
    simp [hconsl]

/-- C9 witness: the three cases at concrete stores — empty store, a record
expired at time 1000, and a live record consumed by a first read — all
answer the same sentinel. -/
theorem C9_indistinguishable_witness :
    (App.get_message decTest 1000000 "kkkkkkkkkk" Table.empty).1 = App.notAvailableResp ∧
    (App.get_message decTest 1000000 "kkkkkkkkkk"
      (Table.put Table.empty "kkkkkkkkkk"
        [("messageKey", Attr.str "kkkkkkkkkk"), ("ttl", Attr.num 1000),
         ("encryptedMessage", Attr.str "#hi"), ("ttlOption", Attr.str "1hour")])).1
      = App.notAvailableResp ∧
    (App.get_message decTest 1000000 "kkkkkkkkkk"
      (Table.put Table.empty "kkkkkkkkkk"
        [("messageKey", Attr.str "kkkkkkkkkk"), ("ttl", Attr.num 2000000),
         ("encryptedMessage", Attr.str "#hi"), ("ttlOption", Attr.str "1hour")])).1
      = ⟨200, [("message", Attr.str "hi"), ("ttlOption", Attr.str "1hour")]⟩ ∧
    (App.get_message decTest 1000000 "kkkkkkkkkk"
      (App.get_message decTest 1000000 "kkkkkkkkkk"
        (Table.put Table.empty "kkkkkkkkkk"
          [("messageKey", Attr.str "kkkkkkkkkk"), ("ttl", Attr.num 2000000),
           ("encryptedMessage", Attr.str "#hi"), ("ttlOption", Attr.str "1hour")])).2).1
      = App.notAvailableResp ∧
    (LambdaFunction.get_message 1000000 "kkkkkkkkkk" Table.empty).1
      = LambdaResult.ok notAvailableBody ∧
    (LambdaFunction.get_message 1000000 "kkkkkkkkkk"
      (Table.put Table.empty "kkkkkkkkkk"
        [("messageKey", Attr.str "kkkkkkkkkk"), ("ttl", Attr.num 1000),
         ("encryptedMessage", Attr.str "#hi"), ("ttlOption", Attr.str "1hour")])).1
      = LambdaResult.ok notAvailableBody ∧
    (LambdaFunction.get_message 1000000 "kkkkkkkkkk"
      (LambdaFunction.get_message 1000000 "kkkkkkkkkk"
        (Table.put Table.empty "kkkkkkkkkk"
          [("messageKey", Attr.str "kkkkkkkkkk"), ("ttl", Attr.num 2000000),
           ("encryptedMessage", Attr.str "#hi"), ("ttlOption", Attr.str "1hour")])).2).1
      = LambdaResult.ok notAvailableBody := by
  exact C9_indistinguishable decTest 1000000 1000000 1000000 1000000 "kkkkkkkkkk"
    Table.empty
    (Table.put Table.empty "kkkkkkkkkk"
      [("messageKey", Attr.str "kkkkkkkkkk"), ("ttl", Attr.num 1000),
       ("encryptedMessage", Attr.str "#hi"), ("ttlOption", Attr.str "1hour")])
    (Table.put Table.empty "kkkkkkkkkk"
      [("messageKey", Attr.str "kkkkkkkkkk"), ("ttl", Attr.num 2000000),
       ("encryptedMessage", Attr.str "#hi"), ("ttlOption", Attr.str "1hour")])
    [("messageKey", Attr.str "kkkkkkkkkk"), ("ttl", Attr.num 1000),
     ("encryptedMessage", Attr.str "#hi"), ("ttlOption", Attr.str "1hour")]
    [("messageKey", Attr.str "kkkkkkkkkk"), ("ttl", Attr.num 2000000),
     ("encryptedMessage", Attr.str "#hi"), ("ttlOption", Attr.str "1hour")]
    1000 "#hi" "hi"
    rfl (by decide) (by decide) (by decide) (by decide) (by decide) (by decide) (by decide)

/-- C10: in both backends, a `Read` that finds a record whose `ttl` attribute
is missing or non-numeric (a string) coerces the expiry to 0, so the record
is treated as already expired: it is deleted from the store and the
not-available outcome is returned, with no error raised and the record never
served (for any positive current time). -/
theorem C10_malformed_ttl
    (dec : String → Option String) (now : Int) (k : String) (t : Table) (item : Obj)
    (hpresent : t k = some item)
    (hnow : 0 < now)
    (httl : getAttr item "ttl" = none ∨ ∃ s, getAttr item "ttl" = some (Attr.str s)) :
    App.get_message dec now k t = (App.notAvailableResp, Table.del t k) ∧
    LambdaFunction.get_message now k t = (LambdaResult.ok notAvailableBody, Table.del t k) := by
  have hval : ttlValueOf item = 0 := by
    rcases httl with h | ⟨s, h⟩ <;> simp [ttlValueOf, h]
  have hv : ttlValueOf item < now := by rw [hval]; exact hnow
  constructor
  · unfold App.get_message
    simp [hpresent, hv]
  · unfold LambdaFunction.get_message
    simp [hpresent, hv]

/-- C10 witness: a concrete record whose `ttl` is the string `oops`, read at
time 1000000 — deleted and answered with the sentinel in both backends. -/
theorem C10_malformed_ttl_witness :
    App.get_message decTest 1000000 "kkkkkkkkkk"
      (Table.put Table.empty "kkkkkkkkkk"
        [("messageKey", Attr.str "kkkkkkkkkk"), ("ttl", Attr.str "oops"),
         ("encryptedMessage", Attr.str "#x"), ("ttlOption", Attr.str "15min")])
      = (App.notAvailableResp,
         Table.del (Table.put Table.empty "kkkkkkkkkk"
           [("messageKey", Attr.str "kkkkkkkkkk"), ("ttl", Attr.str "oops"),
            ("encryptedMessage", Attr.str "#x"), ("ttlOption", Attr.str "15min")]) "kkkkkkkkkk") ∧
    LambdaFunction.get_message 1000000 "kkkkkkkkkk"
      (Table.put Table.empty "kkkkkkkkkk"
        [("messageKey", Attr.str "kkkkkkkkkk"), ("ttl", Attr.str "oops"),
         ("encryptedMessage", Attr.str "#x"), ("ttlOption", Attr.str "15min")])
      = (LambdaResult.ok notAvailableBody,
         Table.del (Table.put Table.empty "kkkkkkkkkk"
           [("messageKey", Attr.str "kkkkkkkkkk"), ("ttl", Attr.str "oops"),
            ("encryptedMessage", Attr.str "#x"), ("ttlOption", Attr.str "15min")]) "kkkkkkkkkk") := by
  exact C10_malformed_ttl decTest 1000000 "kkkkkkkkkk"
    (Table.put Table.empty "kkkkkkkkkk"
      [("messageKey", Attr.str "kkkkkkkkkk"), ("ttl", Attr.str "oops"),
       ("encryptedMessage", Attr.str "#x"), ("ttlOption", Attr.str "15min")])
    [("messageKey", Attr.str "kkkkkkkkkk"), ("ttl", Attr.str "oops"),
     ("encryptedMessage", Attr.str "#x"), ("ttlOption", Attr.str "15min")]
    (by decide) (by decide) (Or.inr ⟨"oops", by decide⟩)
